import Mathlib

/-!
Shallow embedding of the state-management core of `src/app/index.jsx`:
the two Redux slices (`ui`, `todos`) created with `createSlice`, the
derived selectors used by the cards, and the store aggregator.
-/

/-- A todo item, as built by `addTodo.prepare` in `src/app/index.jsx`:
`{ id: nanoid(), title, done: false, createdAt: Date.now(), dateTime: now.toLocaleString() }`.
The opaque `nanoid()` id is modelled as a `Nat`; `createdAt` (epoch ms) as a `Nat`;
`dateTime` (locale string) as a `String`. -/
structure TodoItem where
  id : Nat
  title : String
  done : Bool
  createdAt : Nat
  dateTime : String
deriving DecidableEq, Repr

/-- The `todos` slice state: `{ items: [] }`. -/
structure TaskListState where
  items : List TodoItem
deriving DecidableEq, Repr

/-- `initialState: { items: [] }` of the todos slice. -/
def todosInitial : TaskListState := { items := [] }

/-- The `prepare` callback of `addTodo`: builds the payload with the given
freshly generated id and timestamps, `done := false`. -/
def addTodoPrepare (id : Nat) (title : String) (createdAt : Nat) (dateTime : String) :
    TodoItem :=
  { id := id, title := title, done := false, createdAt := createdAt, dateTime := dateTime }

/-- The `reducer` of `addTodo`: `state.items.unshift(action.payload)` (prepend). -/
def addTodoReducer (p : TodoItem) (s : TaskListState) : TaskListState :=
  { items := p :: s.items }

/-- `addTodo`: prepare the payload, then prepend it. -/
def addTodo (id : Nat) (title : String) (createdAt : Nat) (dateTime : String)
    (s : TaskListState) : TaskListState :=
  addTodoReducer (addTodoPrepare id title createdAt dateTime) s

/-- Flip the `done` flag of the first item whose id matches, as
`toggleTodo` does via `state.items.find(...)` followed by `t.done = !t.done`. -/
def toggleList (i : Nat) : List TodoItem → List TodoItem
  | [] => []
  | t :: ts => if t.id = i then { t with done := !t.done } :: ts else t :: toggleList i ts

/-- `toggleTodo(state, action)`: `const t = state.items.find((x) => x.id === action.payload);
if (t) t.done = !t.done;`. -/
def toggleTodo (i : Nat) (s : TaskListState) : TaskListState :=
  { items := toggleList i s.items }

/-- `removeTodo(state, action)`: `state.items = state.items.filter((x) => x.id !== action.payload)`. -/
def removeTodo (i : Nat) (s : TaskListState) : TaskListState :=
  { items := s.items.filter (fun x => x.id != i) }

/-- `clearTodos(state)`: `state.items = state.items.filter(item => item.done)`. -/
def clearTodos (s : TaskListState) : TaskListState :=
  { items := s.items.filter (fun t => t.done) }

/-- Selector in `TodosCard`: `todos.filter(item => !item.done)`. -/
def activeTasks (s : TaskListState) : List TodoItem :=
  s.items.filter (fun t => !t.done)

/-- Selector in `FinishedTasksCard`: `todos.filter(item => item.done)`. -/
def finishedTasks (s : TaskListState) : List TodoItem :=
  s.items.filter (fun t => t.done)

/-- A sequence of `addTodo` dispatches starting from the empty list, each call
carrying the externally generated id and timestamps (the `prepare` callback
draws them from `nanoid()` and `Date`). -/
def runAdds (calls : List (Nat × String × Nat × String)) : TaskListState :=
  calls.foldl (fun s x => addTodo x.1 x.2.1 x.2.2.1 x.2.2.2 s) todosInitial

/-- The `ui` slice state: `{ darkMode: false, showBanner: false, bannerMessage: "" }`. -/
structure UiModeState where
  darkMode : Bool
  showBanner : Bool
  bannerMessage : String
deriving DecidableEq, Repr

/-- `initialState` of the ui slice. -/
def uiInitial : UiModeState :=
  { darkMode := false, showBanner := false, bannerMessage := "" }

/-- `toggleDarkMode(state)`: `state.darkMode = !state.darkMode`. -/
def toggleDarkMode (s : UiModeState) : UiModeState :=
  { s with darkMode := !s.darkMode }

/-- `showBanner(state, action)`: `state.showBanner = true; state.bannerMessage = action.payload`. -/
def showBanner (msg : String) (s : UiModeState) : UiModeState :=
  { s with showBanner := true, bannerMessage := msg }

/-- `dismissBanner(state)`: `state.showBanner = false; state.bannerMessage = ""`. -/
def dismissBanner (s : UiModeState) : UiModeState :=
  { s with showBanner := false, bannerMessage := "" }

/-- Everything of a `TodoItem` except its mutable `done` flag. -/
def stripDone (t : TodoItem) : Nat × String × Nat × String :=
  (t.id, t.title, t.createdAt, t.dateTime)

/-- The three intents of the `ui` slice, as a tagged variant. -/
inductive UiAction where
  | toggleDarkMode
  | showBanner (msg : String)
  | dismissBanner
deriving DecidableEq, Repr

/-- Route one ui intent to its reducer. -/
def uiStep (a : UiAction) (s : UiModeState) : UiModeState :=
  match a with
  | .toggleDarkMode => toggleDarkMode s
  | .showBanner msg => showBanner msg s
  | .dismissBanner => dismissBanner s

/-- Run a sequence of ui dispatches from the slice's initial state. -/
def uiRun (as : List UiAction) : UiModeState :=
  as.foldl (fun s a => uiStep a s) uiInitial

/-- The invariant of the ui slice: a hidden banner carries no message. -/
def bannerInv (s : UiModeState) : Prop :=
  s.showBanner = false → s.bannerMessage = ""

/-- The four intents of the `todos` slice. An `add` carries the title and the
timestamps; the fresh id is produced by the generator in the step function. -/
inductive TodoAction where
  | add (title : String) (createdAt : Nat) (dateTime : String)
  | toggle (id : Nat)
  | remove (id : Nat)
  | clear
deriving DecidableEq, Repr

/-- Route one todos intent to its reducer, threading the id generator: the
external `nanoid()` is modelled as a counter that yields a fresh id on each
`addTodo` call. -/
def todoStepGen (a : TodoAction) (p : TaskListState × Nat) : TaskListState × Nat :=
  match a with
  | .add title c d => (addTodo p.2 title c d p.1, p.2 + 1)
  | .toggle i => (toggleTodo i p.1, p.2)
  | .remove i => (removeTodo i p.1, p.2)
  | .clear => (clearTodos p.1, p.2)

/-- Run a sequence of todos dispatches from the empty initial state with a
fresh generator. -/
def todoRun (as : List TodoAction) : TaskListState × Nat :=
  as.foldl (fun p a => todoStepGen a p) (todosInitial, 0)

/-- The combined state tree built by `configureStore({ reducer: { ui, todos } })`. -/
structure StoreState where
  ui : UiModeState
  todos : TaskListState
deriving DecidableEq, Repr

/-- The store's initial state: each slice reducer supplies its `initialState`. -/
def initialStore : StoreState :=
  { ui := uiInitial, todos := todosInitial }

/-- A dispatched intent's payload: nothing, a text, an item id, or the data of
a new todo (title plus the externally generated id and timestamps). -/
inductive Payload where
  | unit
  | text (s : String)
  | ident (i : Nat)
  | add (id : Nat) (title : String) (createdAt : Nat) (dateTime : String)
deriving DecidableEq, Repr

/-- Read a text payload (empty if absent). -/
def Payload.asText : Payload → String
  | .text s => s
  | _ => ""

/-- Read an id payload (0 if absent). -/
def Payload.asId : Payload → Nat
  | .ident i => i
  | _ => 0

/-- Read an add payload (defaults if absent). -/
def Payload.asAdd : Payload → Nat × String × Nat × String
  | .add id title c d => (id, title, c, d)
  | _ => (0, "", 0, "")

/-- The intent names handled by the two slices. -/
def handledNames : List String :=
  ["toggleDarkMode", "showBanner", "dismissBanner",
   "addTodo", "toggleTodo", "removeTodo", "clearTodos"]

/-- Modelled from the spec: the Store Aggregator's dispatch. The routing of a
string-tagged intent to the owning slice's reducer lives in the external
`@reduxjs/toolkit` runtime, not in `src/`; per the spec it routes each intent
name to exactly one slice's transition function and rejects unknown intents
with a "no matching handler" condition. -/
def dispatch (name : String) (p : Payload) (st : StoreState) : Except String StoreState :=
  if name = "toggleDarkMode" then .ok { st with ui := toggleDarkMode st.ui }
  else if name = "showBanner" then .ok { st with ui := showBanner p.asText st.ui }
  else if name = "dismissBanner" then .ok { st with ui := dismissBanner st.ui }
  else if name = "addTodo" then
    .ok { st with todos := addTodo p.asAdd.1 p.asAdd.2.1 p.asAdd.2.2.1 p.asAdd.2.2.2 st.todos }
  else if name = "toggleTodo" then .ok { st with todos := toggleTodo p.asId st.todos }
  else if name = "removeTodo" then .ok { st with todos := removeTodo p.asId st.todos }
  else if name = "clearTodos" then .ok { st with todos := clearTodos st.todos }
  else .error "no matching handler"

-- Theorems

/-- C1: `clearTodos` keeps exactly the items with `done == true`, in their
original relative order (order-preserving sublist with membership exactly the
finished items), and never empties a list containing a finished item. -/
theorem clearTodos_spec (s : TaskListState) :
    (clearTodos s).items.Sublist s.items ∧
    (∀ t, t ∈ (clearTodos s).items ↔ t ∈ s.items ∧ t.done = true) ∧
    ((∃ t ∈ s.items, t.done = true) → (clearTodos s).items ≠ []) := by
  refine ⟨List.filter_sublist s.items, fun t => ?_, fun ⟨t, ht, hd⟩ => ?_⟩
  · simp [clearTodos, List.mem_filter]
  · have : t ∈ (clearTodos s).items := by
      simp [clearTodos, List.mem_filter, ht, hd]
    exact List.ne_nil_of_mem this

theorem runAdds_items (calls : List (Nat × String × Nat × String)) :
    (runAdds calls).items =
      (calls.map (fun x => addTodoPrepare x.1 x.2.1 x.2.2.1 x.2.2.2)).reverse := by
  suffices h : ∀ (s : TaskListState),
      (calls.foldl (fun s x => addTodo x.1 x.2.1 x.2.2.1 x.2.2.2 s) s).items =
        (calls.map (fun x => addTodoPrepare x.1 x.2.1 x.2.2.1 x.2.2.2)).reverse ++ s.items by
    simpa [runAdds, todosInitial] using h todosInitial
  induction calls with
  | nil => intro s; simp
  | cons c cs ih =>
    intro s
    rw [List.foldl_cons, ih]
    simp [addTodo, addTodoReducer]

/-- Witness for C1 at the spec's example `[A(done=false), B(done=true), C(done=false)]`:
the result is exactly `[B]`, in particular nonempty. -/
theorem clearTodos_spec_witness :
    clearTodos ⟨[{ id := 1, title := "A", done := false, createdAt := 0, dateTime := "" },
                 { id := 2, title := "B", done := true, createdAt := 0, dateTime := "" },
                 { id := 3, title := "C", done := false, createdAt := 0, dateTime := "" }]⟩ =
      ⟨[{ id := 2, title := "B", done := true, createdAt := 0, dateTime := "" }]⟩ ∧
    (clearTodos ⟨[{ id := 1, title := "A", done := false, createdAt := 0, dateTime := "" },
                  { id := 2, title := "B", done := true, createdAt := 0, dateTime := "" },
                  { id := 3, title := "C", done := false, createdAt := 0, dateTime := "" }]⟩).items ≠ [] := by
  refine ⟨by decide, ?_⟩
  exact (clearTodos_spec _).2.2
    ⟨{ id := 2, title := "B", done := true, createdAt := 0, dateTime := "" }, by decide, rfl⟩

/-- C2: `addTodo(title)` prepends exactly one new item with the given title and
`done = false` (the id and timestamps come from the external generator, modelled
as parameters); after any sequence of `addTodo` calls from the empty list,
`items.length` equals the number of calls and the head of `items` is the item
of the most recent call. -/
theorem addTodo_spec (id : Nat) (title : String) (c : Nat) (d : String)
    (s : TaskListState) (calls : List (Nat × String × Nat × String)) :
    (addTodo id title c d s).items = addTodoPrepare id title c d :: s.items ∧
    (addTodoPrepare id title c d).title = title ∧
    (addTodoPrepare id title c d).done = false ∧
    (runAdds calls).items.length = calls.length ∧
    (runAdds (calls ++ [(id, title, c, d)])).items.head? =
      some (addTodoPrepare id title c d) := by
  refine ⟨rfl, rfl, rfl, ?_, ?_⟩
  · simp [runAdds_items]
  · simp [runAdds, List.foldl_append, addTodo, addTodoReducer]

/-- C3: `activeTasks` and `finishedTasks` partition `items`: every item of
`items` is in exactly one of the two selections, no item is in both, and
their concatenation is a permutation of `items` (equal as multisets). -/
theorem tasks_partition (s : TaskListState) :
    (∀ t ∈ s.items,
      (t ∈ activeTasks s ∧ t ∉ finishedTasks s) ∨
      (t ∈ finishedTasks s ∧ t ∉ activeTasks s)) ∧
    (∀ t, ¬(t ∈ activeTasks s ∧ t ∈ finishedTasks s)) ∧
    (activeTasks s ++ finishedTasks s).Perm s.items := by
  refine ⟨fun t ht => ?_, fun t ⟨ha, hf⟩ => ?_, ?_⟩
  · by_cases hd : t.done
    · exact Or.inr ⟨by simp [finishedTasks, List.mem_filter, ht, hd],
        by simp [activeTasks, List.mem_filter, hd]⟩
    · exact Or.inl ⟨by simp [activeTasks, List.mem_filter, ht, hd],
        by simp [finishedTasks, List.mem_filter, hd]⟩
  · rw [activeTasks, List.mem_filter] at ha
    rw [finishedTasks, List.mem_filter] at hf
    simp [hf.2] at ha
  · rw [activeTasks, finishedTasks]
    have h := List.filter_append_perm (fun t => t.done) s.items
    exact List.perm_append_comm.trans h

/-- Witness for C3: the partition permutation at a concrete two-item state. -/
theorem tasks_partition_witness :
    (activeTasks ⟨[{ id := 1, title := "A", done := false, createdAt := 0, dateTime := "" },
                   { id := 2, title := "B", done := true, createdAt := 0, dateTime := "" }]⟩ ++
     finishedTasks ⟨[{ id := 1, title := "A", done := false, createdAt := 0, dateTime := "" },
                     { id := 2, title := "B", done := true, createdAt := 0, dateTime := "" }]⟩).Perm
      [{ id := 1, title := "A", done := false, createdAt := 0, dateTime := "" },
       { id := 2, title := "B", done := true, createdAt := 0, dateTime := "" }] :=
  (tasks_partition _).2.2

theorem toggleList_eq_of_not_mem (i : Nat) (l : List TodoItem)
    (h : i ∉ l.map TodoItem.id) : toggleList i l = l := by
  induction l with
  | nil => rfl
  | cons t ts ih =>
    simp only [List.map_cons, List.mem_cons, not_or] at h
    rw [toggleList, if_neg (fun he => h.1 he.symm), ih h.2]

/-- C4: `toggleTodo` and `removeTodo` with an id matching no item are silent
no-ops: the state (in particular `items`) is returned unchanged, and being
total functions they raise no error. -/
theorem unknown_id_noop (i : Nat) (s : TaskListState)
    (h : i ∉ s.items.map TodoItem.id) :
    toggleTodo i s = s ∧ removeTodo i s = s := by
  constructor
  · rw [toggleTodo, toggleList_eq_of_not_mem i s.items h]
  · rw [removeTodo, List.filter_eq_self.mpr]
    intro t ht
    simp only [bne_iff_ne, ne_eq]
    exact fun he => h (he ▸ List.mem_map_of_mem TodoItem.id ht)

/-- Witness for C4: id 2 matches nothing in a one-item list; both operations
leave the state unchanged. -/
theorem unknown_id_noop_witness :
    toggleTodo 2 ⟨[{ id := 1, title := "A", done := false, createdAt := 0, dateTime := "" }]⟩ =
      ⟨[{ id := 1, title := "A", done := false, createdAt := 0, dateTime := "" }]⟩ ∧
    removeTodo 2 ⟨[{ id := 1, title := "A", done := false, createdAt := 0, dateTime := "" }]⟩ =
      ⟨[{ id := 1, title := "A", done := false, createdAt := 0, dateTime := "" }]⟩ :=
  unknown_id_noop 2 _ (by decide)

theorem toggleList_toggleList (i : Nat) (l : List TodoItem) :
    toggleList i (toggleList i l) = l := by
  induction l with
  | nil => rfl
  | cons t ts ih =>
    by_cases hid : t.id = i
    · rw [toggleList, if_pos hid, toggleList, if_pos hid]
      cases t
      simp
    · rw [toggleList, if_neg hid, toggleList, if_neg hid, ih]

/-- C6: `toggleTodo(id)` applied twice returns the state — hence in particular
every matched item's `done` flag — to its original value (involution). -/
theorem toggleTodo_involution (i : Nat) (s : TaskListState) :
    toggleTodo i (toggleTodo i s) = s := by
  rw [toggleTodo, toggleTodo, toggleList_toggleList]

/-- C7: `dismissBanner` sets `showBanner = false` and `bannerMessage = ""` and
is idempotent: applied to its own result it produces an identical state. -/
theorem dismissBanner_idempotent (s : UiModeState) :
    (dismissBanner s).showBanner = false ∧
    (dismissBanner s).bannerMessage = "" ∧
    dismissBanner (dismissBanner s) = dismissBanner s :=
  ⟨rfl, rfl, rfl⟩

/-- C5: dispatching any intent whose name is not among the seven handled names
is rejected with the "no matching handler" error, and it is the only rejected
case; every recognized intent is routed to exactly one slice's transition
function (each accepted dispatch is the corresponding reducer applied to its
own slice, the other slice untouched). -/
theorem dispatch_spec (name : String) (p : Payload) (st : StoreState) :
    (dispatch name p st = Except.error "no matching handler" ↔ name ∉ handledNames) ∧
    (∀ st', dispatch name p st = Except.ok st' → st'.ui = st.ui ∨ st'.todos = st.todos) ∧
    dispatch "toggleDarkMode" p st = Except.ok { st with ui := toggleDarkMode st.ui } ∧
    dispatch "showBanner" p st = Except.ok { st with ui := showBanner p.asText st.ui } ∧
    dispatch "dismissBanner" p st = Except.ok { st with ui := dismissBanner st.ui } ∧
    dispatch "addTodo" p st = Except.ok { st with
      todos := addTodo p.asAdd.1 p.asAdd.2.1 p.asAdd.2.2.1 p.asAdd.2.2.2 st.todos } ∧
    dispatch "toggleTodo" p st = Except.ok { st with todos := toggleTodo p.asId st.todos } ∧
    dispatch "removeTodo" p st = Except.ok { st with todos := removeTodo p.asId st.todos } ∧
    dispatch "clearTodos" p st = Except.ok { st with todos := clearTodos st.todos } := by
  refine ⟨?_, ?_, by simp [dispatch], by simp [dispatch], by simp [dispatch],
    by simp [dispatch], by simp [dispatch], by simp [dispatch], by simp [dispatch]⟩
  · rw [dispatch, handledNames]
    split_ifs <;> simp_all
  · intro st' h
    rw [dispatch] at h
    split_ifs at h <;>
      first
        | exact Except.noConfusion h
        | · injection h with h2
            subst h2
            simp

/-- Witness for C5: an unknown intent name is rejected with the
"no matching handler" error. -/
theorem dispatch_spec_witness :
    dispatch "bogus" Payload.unit initialStore = Except.error "no matching handler" :=
  (dispatch_spec "bogus" Payload.unit initialStore).1.mpr (by simp [handledNames])

/-- C8: the invariant "banner hidden implies empty message" holds of the
initial ui state, is preserved by every ui transition, and therefore holds in
every reachable ui state. -/
theorem banner_invariant :
    bannerInv uiInitial ∧
    (∀ a s, bannerInv s → bannerInv (uiStep a s)) ∧
    (∀ as, bannerInv (uiRun as)) := by
  have hstep : ∀ a s, bannerInv s → bannerInv (uiStep a s) := by
    intro a s hs
    cases a with
    | toggleDarkMode => exact hs
    | showBanner msg => intro h; exact absurd h (by simp [uiStep, showBanner])
    | dismissBanner => intro _; rfl
  refine ⟨fun _ => rfl, hstep, fun as => ?_⟩
  have hrun : ∀ (l : List UiAction) (s : UiModeState),
      bannerInv s → bannerInv (l.foldl (fun s a => uiStep a s) s) := by
    intro l
    induction l with
    | nil => exact fun s hs => hs
    | cons a l ih => exact fun s hs => ih _ (hstep a s hs)
  exact hrun as uiInitial (fun _ => rfl)

/-- Witness for C8: the preservation clause applied to `dismissBanner` at a
concrete state with a visible banner. -/
theorem banner_invariant_witness :
    bannerInv (uiStep UiAction.dismissBanner
      { darkMode := true, showBanner := true, bannerMessage := "hello" }) :=
  banner_invariant.2.1 UiAction.dismissBanner
    { darkMode := true, showBanner := true, bannerMessage := "hello" }
    (fun h => Bool.noConfusion h)

theorem toggleList_map_id (i : Nat) (l : List TodoItem) :
    (toggleList i l).map TodoItem.id = l.map TodoItem.id := by
  induction l with
  | nil => rfl
  | cons t ts ih =>
    by_cases h : t.id = i
    · rw [toggleList, if_pos h]
      simp
    · rw [toggleList, if_neg h]
      simp [ih]

theorem todoStepGen_inv (a : TodoAction) (p : TaskListState × Nat)
    (h1 : ∀ x ∈ p.1.items.map TodoItem.id, x < p.2)
    (h2 : (p.1.items.map TodoItem.id).Nodup) :
    (∀ x ∈ (todoStepGen a p).1.items.map TodoItem.id, x < (todoStepGen a p).2) ∧
    ((todoStepGen a p).1.items.map TodoItem.id).Nodup := by
  cases a with
  | add title c d =>
    constructor
    · intro x hx
      simp only [todoStepGen, addTodo, addTodoReducer, addTodoPrepare,
        List.map_cons, List.mem_cons] at hx ⊢
      rcases hx with rfl | hx
      · exact Nat.lt_succ_self _
      · exact Nat.lt_trans (h1 x hx) (Nat.lt_succ_self _)
    · simp only [todoStepGen, addTodo, addTodoReducer, addTodoPrepare,
        List.map_cons, List.nodup_cons]
      exact ⟨fun hmem => Nat.lt_irrefl p.2 (h1 p.2 hmem), h2⟩
  | toggle i =>
    simp only [todoStepGen, toggleTodo, toggleList_map_id]
    exact ⟨h1, h2⟩
  | remove i =>
    have hsub : ((p.1.items.filter (fun x => x.id != i)).map TodoItem.id).Sublist
        (p.1.items.map TodoItem.id) :=
      (List.filter_sublist p.1.items).map TodoItem.id
    exact ⟨fun x hx => h1 x (hsub.subset hx), h2.sublist hsub⟩
  | clear =>
    have hsub : ((p.1.items.filter (fun t => t.done)).map TodoItem.id).Sublist
        (p.1.items.map TodoItem.id) :=
      (List.filter_sublist p.1.items).map TodoItem.id
    exact ⟨fun x hx => h1 x (hsub.subset hx), h2.sublist hsub⟩

/-- C9: after any sequence of `addTodo` / `toggleTodo` / `removeTodo` /
`clearTodos` dispatches from the empty initial state, the ids of the items are
pairwise distinct (the external `nanoid()` generator modelled as a counter
producing a fresh id on each `addTodo`). -/
theorem todo_ids_nodup (as : List TodoAction) :
    ((todoRun as).1.items.map TodoItem.id).Nodup := by
  have hrun : ∀ (l : List TodoAction) (p : TaskListState × Nat),
      ((∀ x ∈ p.1.items.map TodoItem.id, x < p.2) ∧ (p.1.items.map TodoItem.id).Nodup) →
      ((∀ x ∈ (l.foldl (fun p a => todoStepGen a p) p).1.items.map TodoItem.id,
          x < (l.foldl (fun p a => todoStepGen a p) p).2) ∧
        ((l.foldl (fun p a => todoStepGen a p) p).1.items.map TodoItem.id).Nodup) := by
    intro l
    induction l with
    | nil => exact fun p hp => hp
    | cons a l ih => exact fun p hp => ih _ (todoStepGen_inv a p hp.1 hp.2)
  exact (hrun as (todosInitial, 0) ⟨by simp [todosInitial], by simp [todosInitial]⟩).2

theorem toggleList_length (i : Nat) (l : List TodoItem) :
    (toggleList i l).length = l.length := by
  induction l with
  | nil => rfl
  | cons t ts ih =>
    by_cases h : t.id = i
    · rw [toggleList, if_pos h]
      simp [ih]
    · rw [toggleList, if_neg h]
      simp [ih]

theorem toggleList_map_stripDone (i : Nat) (l : List TodoItem) :
    (toggleList i l).map stripDone = l.map stripDone := by
  induction l with
  | nil => rfl
  | cons t ts ih =>
    by_cases h : t.id = i
    · rw [toggleList, if_pos h]
      simp [stripDone]
    · rw [toggleList, if_neg h]
      simp [ih]

theorem findIdx_cons_pos (i : Nat) (t : TodoItem) (ts : List TodoItem) (h : t.id = i) :
    (t :: ts).findIdx (fun x => x.id == i) = 0 := by
  simp [List.findIdx_cons, h]

theorem findIdx_cons_neg (i : Nat) (t : TodoItem) (ts : List TodoItem) (h : ¬t.id = i) :
    (t :: ts).findIdx (fun x => x.id == i) = ts.findIdx (fun x => x.id == i) + 1 := by
  have hb : (t.id == i) = false := by simp [h]
  simp [List.findIdx_cons, hb]

theorem toggleList_getElem_ne (i : Nat) (l : List TodoItem) (j : Nat)
    (hj : j ≠ l.findIdx (fun t => t.id == i)) :
    (toggleList i l)[j]? = l[j]? := by
  induction l generalizing j with
  | nil => rfl
  | cons t ts ih =>
    by_cases h : t.id = i
    · rw [toggleList, if_pos h]
      rw [findIdx_cons_pos i t ts h] at hj
      cases j with
      | zero => exact absurd rfl hj
      | succ j => simp
    · rw [toggleList, if_neg h]
      rw [findIdx_cons_neg i t ts h] at hj
      cases j with
      | zero => simp
      | succ j =>
        simp only [List.getElem?_cons_succ]
        exact ih j (fun he => hj (by rw [he]))

theorem toggleList_getElem_eq (i : Nat) (l : List TodoItem) :
    (toggleList i l)[l.findIdx (fun t => t.id == i)]? =
      (l[l.findIdx (fun t => t.id == i)]?).map (fun t => { t with done := !t.done }) := by
  induction l with
  | nil => rfl
  | cons t ts ih =>
    by_cases h : t.id = i
    · rw [toggleList, if_pos h, findIdx_cons_pos i t ts h]
      simp
    · rw [toggleList, if_neg h, findIdx_cons_neg i t ts h]
      simp only [List.getElem?_cons_succ]
      exact ih

/-- C10: for an id present in `items`, `toggleTodo(id)` changes only the `done`
flag of the (first) matching item: the length is unchanged, every field other
than `done` of every item is unchanged in place, every position other than the
matched one is entirely unchanged, and the matched position differs exactly by
the flipped `done` flag. -/
theorem toggleTodo_frame (i : Nat) (s : TaskListState)
    (_h : i ∈ s.items.map TodoItem.id) :
    (toggleTodo i s).items.length = s.items.length ∧
    (toggleTodo i s).items.map stripDone = s.items.map stripDone ∧
    (∀ j, j ≠ s.items.findIdx (fun t => t.id == i) →
      (toggleTodo i s).items[j]? = s.items[j]?) ∧
    (toggleTodo i s).items[s.items.findIdx (fun t => t.id == i)]? =
      (s.items[s.items.findIdx (fun t => t.id == i)]?).map
        (fun t => { t with done := !t.done }) :=
  ⟨toggleList_length i s.items, toggleList_map_stripDone i s.items,
    fun j hj => toggleList_getElem_ne i s.items j hj,
    toggleList_getElem_eq i s.items⟩

/-- Witness for C10: at a two-item state whose second item has id 2, toggling
id 2 leaves the length (and, by the theorem's other clauses, everything except
that item's `done` flag) unchanged. -/
theorem toggleTodo_frame_witness :
    (toggleTodo 2 ⟨[{ id := 1, title := "A", done := false, createdAt := 0, dateTime := "" },
                    { id := 2, title := "B", done := false, createdAt := 0, dateTime := "" }]⟩).items.length =
      (⟨[{ id := 1, title := "A", done := false, createdAt := 0, dateTime := "" },
         { id := 2, title := "B", done := false, createdAt := 0, dateTime := "" }]⟩ :
        TaskListState).items.length :=
  (toggleTodo_frame 2 _ (by decide)).1
